import Mathlib

/-!
Verification of firmmsync.py against its specification.

The Python program is shallowly embedded: each function of the source is
translated into a Lean definition over explicit inputs standing for the
effects the function performs (remote listings, subprocess results, the
DICOM header reader, the filesystem).  External collaborators that are not
code of this repository (rsync's copy semantics) are modelled from the
spec's words and say so in their doc comments.
-/

namespace Firmmsync

/-! ## Python string and path primitives used by the source -/

/-- The whitespace characters stripped by Python's `str.strip()`
(space, tab, newline, carriage return, form feed, vertical tab). -/
def isPySpace (c : Char) : Bool :=
  c = ' ' || c = '\t' || c = '\n' || c = '\r' || c = '\x0c' || c = '\x0b'

/-- Python `s.strip()`: remove leading and trailing whitespace. -/
def pyStrip (s : String) : String :=
  ⟨((s.data.dropWhile isPySpace).reverse.dropWhile isPySpace).reverse⟩

/-- Python `s.strip(c)` for a single character `c`: remove leading and
trailing occurrences of `c` (the source uses it as `.strip('*')`). -/
def pyStripChar (c : Char) (s : String) : String :=
  ⟨((s.data.dropWhile (· = c)).reverse.dropWhile (· = c)).reverse⟩

/-- Python `s.startswith(pre)`: `pre` is a prefix of `s`. -/
def pyStartswith (s pre : String) : Bool :=
  pre.data.isPrefixOf s.data

/-- Python `os.path.join(a, b)` for the two-argument calls the source makes:
an absolute `b` replaces `a`; otherwise the parts are joined with a single
separator. -/
def pathJoin (a b : String) : String :=
  if b.data.head? = some '/' then b
  else if a = "" then b
  else if a.data.getLast? = some '/' then a ++ b
  else a ++ "/" ++ b

/-- Python `s[0]`: the first character, raising IndexError on an empty
string (the source indexes the raw `ls` output this way). -/
def strHead (s : String) : Except String Char :=
  match s.data with
  | [] => .error "IndexError"
  | c :: _ => .ok c

/-! ## Data model: the DICOM header subset (get_metadata, lines 58-98) -/

/-- The dictionary get_metadata builds: the 7 recognized header fields,
already converted to strings (line 96). -/
structure Metadata where
  StudyID : String
  PatientID : String
  PatientName : String
  ProtocolName : String
  SeriesDescription : String
  SeriesDate : String
  SeriesTime : String
deriving Repr, DecidableEq

/-- The dict of line 96 as key/value pairs, in the order of `tag_list`. -/
def Metadata.toPairs (m : Metadata) : List (String × String) :=
  [("StudyID", m.StudyID), ("PatientID", m.PatientID),
   ("PatientName", m.PatientName), ("ProtocolName", m.ProtocolName),
   ("SeriesDescription", m.SeriesDescription), ("SeriesDate", m.SeriesDate),
   ("SeriesTime", m.SeriesTime)]

/-- The pydicom dataset as `dcmread(..., stop_before_pixels=True,
specific_tags=tag_list)` returns it (line 65): each of the 7 requested tags
is present (`some value`) or absent (`none`).  `SerieDescription` is the
extra, misspelled plain attribute that line 80 of the source assigns; it is
not a DICOM data element, so it does not count towards `len(ds)` and is
never read back. -/
structure Dataset where
  StudyID : Option String := none
  PatientID : Option String := none
  PatientName : Option String := none
  ProtocolName : Option String := none
  SeriesDescription : Option String := none
  SeriesDate : Option String := none
  SeriesTime : Option String := none
  SerieDescription : Option String := none
deriving Repr, DecidableEq

/-- `tag_list` of line 63. -/
def tag_list : List String :=
  ["StudyID", "PatientID", "PatientName", "ProtocolName",
   "SeriesDescription", "SeriesDate", "SeriesTime"]

/-- Python `len(ds)`: the number of data elements the read produced, i.e.
how many of the 7 requested tags were present in the file. -/
def Dataset.numElements (ds : Dataset) : Nat :=
  [ds.StudyID, ds.PatientID, ds.PatientName, ds.ProtocolName,
   ds.SeriesDescription, ds.SeriesDate, ds.SeriesTime].countP Option.isSome

/-- Lines 67-84: the per-tag if-chain that fills missing tags with "null".
The SeriesDescription branch reproduces the source exactly: line 80 assigns
`ds.SerieDescription` (misspelled), leaving the real SeriesDescription tag
absent. -/
def fillMissingTags (ds : Dataset) : Dataset :=
  let ds := if ds.StudyID.isNone then { ds with StudyID := some "null" } else ds
  let ds := if ds.PatientID.isNone then { ds with PatientID := some "null" } else ds
  let ds := if ds.PatientName.isNone then { ds with PatientName := some "null" } else ds
  let ds := if ds.ProtocolName.isNone then { ds with ProtocolName := some "null" } else ds
  let ds := if ds.SeriesDescription.isNone then { ds with SerieDescription := some "null" } else ds
  let ds := if ds.SeriesDate.isNone then { ds with SeriesDate := some "null" } else ds
  let ds := if ds.SeriesTime.isNone then { ds with SeriesTime := some "null" } else ds
  ds

/-- Python attribute access `ds.<tag>` (lines 87-93): the tag's value, or an
AttributeError naming the tag when it is absent. -/
def getTag (v : Option String) (tag : String) : Except String String :=
  match v with
  | some s => .ok s
  | none => .error ("AttributeError: " ++ tag)

/-- get_metadata (lines 60-98) on the dataset the DICOM read produced:
fill missing tags when `len(ds) != len(tag_list)` (line 67), then read the
7 attributes in the order of lines 87-93 (the first absent one raises) and
build the dictionary. -/
def get_metadata (ds0 : Dataset) : Except String Metadata := do
  let ds := if ds0.numElements ≠ tag_list.length then fillMissingTags ds0 else ds0
  let a ← getTag ds.StudyID "StudyID"
  let b ← getTag ds.PatientID "PatientID"
  let c ← getTag ds.PatientName "PatientName"
  let d ← getTag ds.ProtocolName "ProtocolName"
  let e ← getTag ds.SeriesDescription "SeriesDescription"
  let f ← getTag ds.SeriesDate "SeriesDate"
  let g ← getTag ds.SeriesTime "SeriesTime"
  return ⟨a, b, c, d, e, f, g⟩

/-- The classification decision of check_for_fmri (line 241): the sample's
SeriesDescription starts with "fMRI" or with "EPI". -/
def classify (m : Metadata) : Bool :=
  pyStartswith m.SeriesDescription "fMRI" || pyStartswith m.SeriesDescription "EPI"

/-- A dataset with every tag present except SeriesDescription. -/
def dsMissingSD : Dataset :=
  { StudyID := some "3341", PatientID := some "PAT01",
    PatientName := some "DOE^JANE", ProtocolName := some "BOLD",
    SeriesDescription := none,
    SeriesDate := some "20190402", SeriesTime := some "101500" }

/-- A dataset where only SeriesDescription is present. -/
def dsOnlySD : Dataset :=
  { SeriesDescription := some "fMRI_REST" }

/-- A dataset with all 7 tags present. -/
def dsFull : Dataset :=
  { StudyID := some "3341", PatientID := some "PAT01",
    PatientName := some "DOE^JANE", ProtocolName := some "BOLD",
    SeriesDescription := some "fMRI_REST",
    SeriesDate := some "20190402", SeriesTime := some "101500" }

/-- A metadata record whose fields are all "null"; the concrete classifier
examples override SeriesDescription. -/
def mBase : Metadata :=
  ⟨"null", "null", "null", "null", "null", "null", "null"⟩

/-- The metadata get_metadata produces for `dsFull`. -/
def mFull : Metadata :=
  ⟨"3341", "PAT01", "DOE^JANE", "BOLD", "fMRI_REST", "20190402", "101500"⟩

/-! ## Local DICOM lookup (get_dcmpath, lines 42-55) -/

/-- One entry of `os.listdir(srcdir)`: its name, whether
`os.path.isfile` holds for it, and its modification time.  The listing's
order is the directory's unspecified listdir order, unrelated to mtime. -/
structure DirEntry where
  name : String
  isfile : Bool
  mtime : Nat
deriving Repr, DecidableEq

/-- The comprehension filter of line 45: a regular file whose name starts
with "i". -/
def dcmFilter (x : DirEntry) : Bool :=
  x.isfile && pyStartswith x.name "i"

/-- get_dcmpath (lines 42-55).  `isdir` is `os.path.isdir(srcdir)`.
Output: the printed lines, and either the chosen path or the `sys.exit`
code (line 52 and 55 both exit with status 0). -/
def get_dcmpath (srcdir : String) (isdir : Bool) (listing : List DirEntry) :
    List String × Except Nat String :=
  if isdir then
    match listing.filter dcmFilter with
    | dcm :: _ => ([dcm.name], .ok (pathJoin srcdir dcm.name))
    | [] => (["No DICOM file found in: " ++ srcdir ++ "\n Must exit."], .error 0)
  else
    (["No such source directory for DICOM: " ++ srcdir ++ "\n Must exit."], .error 0)

/-- The mtime-greatest entry among the DICOM candidates of a listing; what
get_dcmpath would return if it picked the most recently modified sample. -/
def latestDcmByMtime (l : List DirEntry) : Option DirEntry :=
  (l.filter dcmFilter).foldl
    (fun acc x =>
      match acc with
      | none => some x
      | some y => if x.mtime > y.mtime then some x else some y)
    none

/-- A destination listing accumulating files: the listdir order puts "i2"
(mtime 5) before "i1" (mtime 9). -/
def exListing : List DirEntry :=
  [⟨"a.txt", true, 99⟩, ⟨"i2", true, 5⟩, ⟨"sub", false, 50⟩, ⟨"i1", true, 9⟩]

/-! ## Study display and the cancellation handler (lines 102-110, 203-210) -/

/-- print_studydata (lines 102-110): the six printed lines.  The
PatientName line (line 106) is commented out in the source and therefore
absent here. -/
def print_studydata (m : Metadata) : List String :=
  ["Study ID: " ++ m.StudyID,
   "Patient ID: " ++ m.PatientID,
   "Series Description: " ++ m.SeriesDescription,
   "Series Date: " ++ m.SeriesDate,
   "Series Time: " ++ m.SeriesTime,
   "Protocol: " ++ m.ProtocolName]

/-- The line get_metadata prints before reading (line 61). -/
def readMsg (p : String) : String :=
  "Trying to read as DICOM the file here: " ++ p

/-- signal_handler (lines 203-210) composed with get_dcmpath, get_metadata
and print_studydata.  `readDs` is the dataset `dicom.dcmread` yields for a
path.  Output: the printed lines and the process exit status — 0 for the
`sys.exit(0)` calls (line 210, and inside get_dcmpath), 1 when an uncaught
exception from get_metadata kills the process instead. -/
def signal_handler (incomingdir : String) (isdir : Bool) (listing : List DirEntry)
    (readDs : String → Dataset) : List String × Nat :=
  let banner := "Process intentionally STOPPED. (Ctrl-C)"
  match get_dcmpath incomingdir isdir listing with
  | (out, .error code) => (banner :: out, code)
  | (out, .ok filepath) =>
      match get_metadata (readDs filepath) with
      | .ok m =>
          (banner :: out ++ [readMsg filepath] ++ print_studydata m ++ ["Quitting!"], 0)
      | .error e => (banner :: out ++ [readMsg filepath, e], 1)

/-! ## Remote listing and path resolution (lines 159-198) -/

/-- The stdout of one remote listing
`ssh userAThost ls dir -rt | tail -n 1` as a function of the directory:
the name of the mtime-last entry, typically with a trailing newline, or the
empty string for an empty directory. -/
abbrev Lister := String → String

/-- get_last_imagepath (lines 161-187).  The source indexes `out[0]` before
stripping, so an empty listing at the exam, series or image level raises
IndexError (modeled as `.error`); a failed prefix check sets `flag` to -1
and keeps going; the final `(flag, imagepath, examdir)` is returned in
every non-raising case. -/
def get_last_imagepath (ls : Lister) (rootdir : String) :
    Except String (Int × String × String) :=
  let out1 := ls rootdir
  let ptdir := pathJoin rootdir (pyStrip out1)
  let out2 := ls ptdir
  match strHead out2 with
  | .error e => .error e
  | .ok c2 =>
    let flag1 : Int := if c2 ≠ 'e' then -1 else 0
    let examdir := pathJoin ptdir (pyStrip out2)
    let out3 := ls examdir
    match strHead out3 with
    | .error e => .error e
    | .ok c3 =>
      let flag2 : Int := if c3 ≠ 's' then -1 else flag1
      let seriesdir := pathJoin examdir (pyStrip out3)
      let out4 := ls seriesdir
      match strHead out4 with
      | .error e => .error e
      | .ok c4 =>
        let r : Int × String :=
          if c4 ≠ 'i' then (-1, out4) else (flag2, pyStripChar '*' (pyStrip out4))
        .ok (r.1, pathJoin seriesdir r.2, examdir)

/-- get_last_seriespath (lines 191-198): one level of the same resolution. -/
def get_last_seriespath (ls : Lister) (examdir : String) :
    Except String (Int × String) :=
  let out := ls examdir
  let seriesdir := pathJoin examdir (pyStrip out)
  match strHead out with
  | .error e => .error e
  | .ok c =>
    let flag : Int := if c ≠ 's' then -1 else 0
    .ok (flag, seriesdir)

/-- The patient directory get_last_imagepath resolves (lines 163-165). -/
def ptdirOf (ls : Lister) (root : String) : String :=
  pathJoin root (pyStrip (ls root))

/-- The exam directory get_last_imagepath resolves (lines 166-171). -/
def examdirOf (ls : Lister) (root : String) : String :=
  pathJoin (ptdirOf ls root) (pyStrip (ls (ptdirOf ls root)))

/-- The series directory get_last_imagepath resolves (lines 172-177). -/
def seriesdirOf (ls : Lister) (root : String) : String :=
  pathJoin (examdirOf ls root) (pyStrip (ls (examdirOf ls root)))

/-- The stripped image entry get_last_imagepath resolves (lines 178-184). -/
def imageEntryOf (ls : Lister) (root : String) : String :=
  pyStripChar '*' (pyStrip (ls (seriesdirOf ls root)))

/-- A hierarchy whose exam-level entry "x9" violates the `e` prefix
convention; series and image levels are conventional. -/
def violLister : Lister := fun d =>
  if d = "/r" then "p1\n"
  else if d = "/r/p1" then "x9\n"
  else if d = "/r/p1/x9" then "s2\n"
  else if d = "/r/p1/x9/s2" then "i5\n"
  else ""

/-- A hierarchy with an empty patient-level listing under the root; the
doubled-up listing of the root then continues the descent. -/
def emptyPatientLister : Lister := fun d =>
  if d = "/r" then ""
  else if d = "/r/" then "e1\n"
  else if d = "/r/e1" then "s2\n"
  else if d = "/r/e1/s2" then "i5\n"
  else ""

/-- A hierarchy honoring the p*/e*/s*/i* convention (the image entry keeps
the trailing '*' that `ls` output adds). -/
def okLister : Lister := fun d =>
  if d = "/r" then "p1\n"
  else if d = "/r/p1" then "e3\n"
  else if d = "/r/p1/e3" then "s2\n"
  else if d = "/r/p1/e3/s2" then "i5*\n"
  else ""

/-- A hierarchy whose exam-level listing is empty. -/
def emptyExamLister : Lister := fun d =>
  if d = "/r" then "p1\n" else ""

/-! ## The change-detector polling loop (main, lines 293-308) -/

/-- The loop state of lines 293-295: the baseline `orig_seriesdir` fixed
before the loop, `bFound`, `srcdir`, and a log of the series paths passed
to check_for_fmri (each entry is one fetch-and-classify of a sample). -/
structure DetState where
  orig : String
  found : Bool
  srcdir : String
  classifyCalls : List String
deriving Repr, DecidableEq

/-- One iteration of the `while not bFound` loop (lines 296-308), given the
series path the poll resolved.  `classifyFn` abstracts check_for_fmri: the
classification the fetched sample of a series directory yields.  After
`bFound` the loop has exited and further polls do nothing. -/
def detectorStep (classifyFn : String → Bool) (st : DetState) (polled : String) :
    DetState :=
  if st.found then st
  else if polled ≠ st.orig then
    let b := classifyFn polled
    { st with
      found := b,
      srcdir := if b then polled else st.srcdir,
      classifyCalls := st.classifyCalls ++ [polled] }
  else st

/-- The polling loop over a finite sequence of resolved series paths. -/
def detectorRun (classifyFn : String → Bool) (st : DetState) (polls : List String) :
    DetState :=
  polls.foldl (detectorStep classifyFn) st

/-- The state at line 293-294: `srcdir = seriesdir = orig_seriesdir`,
`bFound = False`, no classification yet. -/
def initDetState (orig : String) : DetState :=
  ⟨orig, false, orig, []⟩

/-! ## Subprocess wrappers (systemcall lines 115-124, systemcall_pipe 128-157) -/

/-- `OK = 0` (line 38). -/
def OK : Int := 0

/-- systemcall (lines 115-124).  `res` is the outcome of
`subprocess.call`: `.ok retcode`, or `.error message` when an OSError is
raised.  Output: the printed lines and the returned value — `none` models
Python's implicit `return None` of the except branch. -/
def systemcall (res : Except String Int) : List String × Option Int :=
  match res with
  | .ok retcode =>
      (if retcode ≠ OK then ["Error code: " ++ toString retcode] else [],
       some retcode)
  | .error e => (["Execution failed: " ++ e], none)

/-- Python's substring test `needle in hay`, on character lists. -/
def pySubstr (needle hay : List Char) : Bool :=
  needle.isPrefixOf hay ||
    match hay with
    | [] => false
    | _ :: t => pySubstr needle t

/-- systemcall_pipe (lines 128-157).  `res` is the outcome of
`Popen` + `communicate`: `.ok (returncode, stdout, stderr)` already decoded,
or `.error message` on OSError.  The stderr message is suppressed when some
entry of the `allow` list occurs in it (lines 141-147).  Output: the
printed lines and the returned value — `some (retcode, str_out)` on the
normal path, `none` from the except branch. -/
def systemcall_pipe (cmdstr : String) (res : Except String (Int × String × String))
    (allow : Option (List String)) : List String × Option (Int × String) :=
  match res with
  | .ok (retcode, out, err) =>
      let errLines :=
        if err ≠ "" then
          let bShow :=
            match allow with
            | some allowList => !(allowList.any (fun a => pySubstr a.data err.data))
            | none => true
          if bShow then
            ["System command " ++ cmdstr ++ " produced stderr message:\n" ++ err]
          else []
        else []
      let outLines :=
        if out ≠ "" then
          ["System command " ++ cmdstr ++ " produced stdout message:\n" ++ out]
        else []
      (errLines ++ outLines, some (retcode, out))
  | .error e => (["Execution failed: " ++ e], none)

/-! ## The staged transfer loop (main, lines 330-344) -/

/-- `time_inc = 0.001` seconds (line 330), expressed in milliseconds: the
fixed delay slept after every successful iteration. -/
def time_inc_ms : Nat := 1

/-- Outcome of running the `while True` loop of lines 332-344 against a
finite sequence of systemcall results: either the loop hit a non-zero
result and the process exited, or it consumed the whole sequence and is
still looping.  `iterationsRun` counts rsync invocations, `sleeps` counts
`sleep(time_inc)` calls, `code` is the `sys.exit` status, `diag` the
diagnostic printed on failure. -/
inductive RunResult where
  | exited (iterationsRun : Nat) (sleeps : Nat) (code : Nat) (diag : String)
  | stillLooping (iterationsRun : Nat) (sleeps : Nat)
deriving Repr, DecidableEq

/-- The loop body iterated over the successive systemcall results.
A result equal to `some OK` (retcode 0) continues after one sleep of
`time_inc`; anything else — a non-zero retcode, or `none` from a swallowed
OSError — prints the diagnostic of line 340 and exits with status 0
(line 341), executing nothing further. -/
def transferRunAux (incomingdir : String) :
    List (Option Int) → Nat → Nat → RunResult
  | [], n, s => .stillLooping n s
  | r :: rs, n, s =>
    if r = some OK then transferRunAux incomingdir rs (n + 1) (s + 1)
    else .exited (n + 1) s 0 ("rsync of this dir failed:\n  " ++ incomingdir)

/-- The transfer loop from its start (`i = 0`). -/
def transferRun (incomingdir : String) (results : List (Option Int)) : RunResult :=
  transferRunAux incomingdir results 0 0

/-! ## The copy step's semantics (external collaborator) -/

/-- Result of one copy-step invocation: the files newly written into the
destination, the destination contents afterwards, and the exit code. -/
structure CopyResult where
  writes : List String
  dest : List String
  ret : Int
deriving Repr, DecidableEq

/-- Modelled from the spec: the copy step the Staged Transfer Engine runs
is an external collaborator (the rsync invocation of line 324, with the
skip-existing option); no code for it is in the repository.  Section 4.6:
"files already present at the destination are skipped (idempotent, safe to
repeat)".  `src` and `dest` are the file names at the source and
destination; a run writes exactly the missing files and succeeds. -/
def copyStep (src dest : List String) : CopyResult :=
  let writes := src.filter (fun f => !(dest.contains f))
  ⟨writes, dest ++ writes, 0⟩

/-- One in-flight file of the staged copy: its name, the bytes written so
far, and its full size. -/
structure FileXfer where
  name : String
  written : Nat
  size : Nat
deriving Repr, DecidableEq

/-- A file is complete when all its bytes are written. -/
def FileXfer.complete (f : FileXfer) : Bool :=
  f.written = f.size

/-- The two directories the transfer writes: the staging directory
(`tempdir`, passed to rsync with -T on line 324) and the consumer-visible
destination (`incomingdir`). -/
structure XferState where
  staging : List FileXfer
  dest : List FileXfer
deriving Repr, DecidableEq

/-- The observable filesystem events of the staged copy. -/
inductive XferOp where
  | start (name : String) (size : Nat)
  | writeBytes (name : String) (n : Nat)
  | finish (name : String)
deriving Repr, DecidableEq

/-- Modelled from the spec: the write-temp-then-make-visible discipline of
the copy collaborator (section 4.6: "in-flight writes land as temporary
names inside the staging area and are only made visible in the destination
on completion"; section 5: "crash-consistency relies entirely on the copy
tool's write-temp-then-make-visible discipline").  `start` opens a
temporary file in the staging directory, `writeBytes` appends bytes there,
and `finish` moves the file into the destination only when it is fully
written. -/
def xferApply (st : XferState) (op : XferOp) : XferState :=
  match op with
  | .start name size => { st with staging := ⟨name, 0, size⟩ :: st.staging }
  | .writeBytes name n =>
      { st with
        staging := st.staging.map fun f =>
          if f.name = name then { f with written := min (f.written + n) f.size } else f }
  | .finish name =>
      match st.staging.find? (fun f => f.name = name) with
      | some f =>
          if f.written = f.size then
            { staging := st.staging.filter (fun g => !(g.name = name)),
              dest := st.dest ++ [f] }
          else st
      | none => st

/-- A staged transfer run from empty directories through any finite event
sequence; an interruption mid-copy is the run stopped after a prefix, and
every prefix of an event list is itself an event list. -/
def xferRun (ops : List XferOp) : XferState :=
  ops.foldl xferApply ⟨[], []⟩

/-! ## Theorems -/

/-- The Python prefix test holds exactly when the string splits as the
pattern followed by a remainder. -/
theorem pyStartswith_iff (s pre : String) :
    pyStartswith s pre = true ↔ ∃ t : List Char, s.data = pre.data ++ t := by
  unfold pyStartswith
  rw [List.isPrefixOf_iff_prefix]
  exact ⟨fun ⟨t, ht⟩ => ⟨t, ht.symm⟩, fun ⟨t, ht⟩ => ⟨t, ht.symm⟩⟩

/-- C1: get_metadata is not total over missing tags.  A dataset missing
only SeriesDescription raises AttributeError — the fill of line 80 writes
the misspelled plain attribute `SerieDescription` and leaves the real tag
absent — whereas a dataset missing every other tag is filled with "null"
and succeeds with all 7 keys. -/
theorem get_metadata_missing_sd_crash :
    get_metadata dsMissingSD = .error "AttributeError: SeriesDescription" ∧
    (dsMissingSD.SerieDescription = none ∧
      (fillMissingTags dsMissingSD).SerieDescription = some "null" ∧
      (fillMissingTags dsMissingSD).SeriesDescription = none) ∧
    get_metadata dsOnlySD = .ok ⟨"null", "null", "null", "null", "fMRI_REST", "null", "null"⟩ ∧
    (Metadata.toPairs ⟨"null", "null", "null", "null", "fMRI_REST", "null", "null"⟩).map Prod.fst
      = tag_list :=
  ⟨rfl, ⟨rfl, rfl, rfl⟩, rfl, rfl⟩

/-- C4: classify is true exactly when SeriesDescription starts with "fMRI"
or with "EPI" (a case-sensitive prefix match: the description is the
pattern followed by a remainder), and on the concrete examples:
"fMRI_REST" and "EPI_TASK" are true, "T1_MPRAGE", "" and the
differently-cased "epi_task" are false. -/
theorem classify_iff_and_examples :
    (∀ m : Metadata, classify m = true ↔
        ((∃ t : List Char, m.SeriesDescription.data = "fMRI".data ++ t) ∨
         (∃ t : List Char, m.SeriesDescription.data = "EPI".data ++ t))) ∧
    classify { mBase with SeriesDescription := "fMRI_REST" } = true ∧
    classify { mBase with SeriesDescription := "EPI_TASK" } = true ∧
    classify { mBase with SeriesDescription := "T1_MPRAGE" } = false ∧
    classify { mBase with SeriesDescription := "" } = false ∧
    classify { mBase with SeriesDescription := "epi_task" } = false := by
  refine ⟨fun m => ?_, rfl, rfl, rfl, rfl, rfl⟩
  unfold classify
  rw [Bool.or_eq_true, pyStartswith_iff, pyStartswith_iff]

/-- C9: an OSError while spawning the subprocess is printed and swallowed:
both systemcall and systemcall_pipe return `none` (Python's None) instead
of a retcode or a (retcode, output) pair, while the normal paths do return
those. -/
theorem oserror_swallowed_returns_none :
    (∀ e : String, systemcall (.error e) = (["Execution failed: " ++ e], none)) ∧
    (∀ (cmd e : String) (allow : Option (List String)),
        systemcall_pipe cmd (.error e) allow = (["Execution failed: " ++ e], none)) ∧
    (∀ rc : Int, (systemcall (.ok rc)).2 = some rc) ∧
    (∀ (cmd : String) (rc : Int) (out err : String) (allow : Option (List String)),
        (systemcall_pipe cmd (.ok (rc, out, err)) allow).2 = some (rc, out)) :=
  ⟨fun _ => rfl, fun _ _ _ => rfl, fun _ => rfl, fun _ _ _ _ _ => rfl⟩

/-- C10: get_dcmpath returns the first matching "i"-file in listdir order:
whenever the filtered listing has head `x`, the result is `srcdir/x.name`;
on the concrete listing `exListing` it picks "i2" (mtime 5) although the
most recently modified candidate is "i1" (mtime 9). -/
theorem get_dcmpath_takes_first_listed :
    (∀ (srcdir : String) (listing : List DirEntry) (x : DirEntry),
        (listing.filter dcmFilter).head? = some x →
        (get_dcmpath srcdir true listing).2 = .ok (pathJoin srcdir x.name)) ∧
    (get_dcmpath "/d" true exListing).2 = .ok "/d/i2" ∧
    latestDcmByMtime exListing = some ⟨"i1", true, 9⟩ ∧
    (get_dcmpath "/d" true exListing).2 ≠ .ok "/d/i1" := by
  refine ⟨?_, rfl, rfl, fun hcon => absurd (Except.ok.inj hcon) (by decide)⟩
  intro srcdir listing x h
  unfold get_dcmpath
  cases hf : listing.filter dcmFilter with
  | nil => rw [hf] at h; simp at h
  | cons a t =>
      rw [hf] at h
      simp only [List.head?_cons, Option.some.injEq] at h
      subst h
      simp

/-- C10 witness: on the concrete listing the theorem yields "i2". -/
theorem get_dcmpath_takes_first_listed_witness :
    (get_dcmpath "/dw" true exListing).2 = .ok (pathJoin "/dw" "i2") :=
  get_dcmpath_takes_first_listed.1 "/dw" exListing ⟨"i2", true, 5⟩ rfl

/-- C2 counterexample: with baseline "s1" and a non-fMRI series "s2", the
baseline after the first rejected classification is still "s1" — not the
rejected "s2" — and polling "s2" again triggers a second fetch-and-classify
of the same series. -/
theorem detector_rejected_counterexample :
    ((detectorRun (fun _ => false) (initDetState "s1") ["s2"]).orig = "s1" ∧
      (detectorRun (fun _ => false) (initDetState "s1") ["s2"]).orig ≠ "s2") ∧
    (detectorRun (fun _ => false) (initDetState "s1") ["s2", "s2"]).classifyCalls
      = ["s2", "s2"] :=
  ⟨⟨rfl, by decide⟩, rfl⟩

/-- The baseline component of the loop state is invariant: no iteration of
the polling loop writes orig_seriesdir. -/
theorem detectorStep_orig (c : String → Bool) (st : DetState) (p : String) :
    (detectorStep c st p).orig = st.orig := by
  unfold detectorStep
  split
  · rfl
  · split <;> rfl

/-- The baseline is invariant over any whole run of the polling loop. -/
theorem detectorRun_orig_eq (c : String → Bool) (st : DetState) (polls : List String) :
    (detectorRun c st polls).orig = st.orig := by
  induction polls generalizing st with
  | nil => rfl
  | cons p t ih =>
      show (List.foldl (detectorStep c) (detectorStep c st p) t).orig = st.orig
      rw [show List.foldl (detectorStep c) (detectorStep c st p) t
            = detectorRun c (detectorStep c st p) t from rfl]
      rw [ih, detectorStep_orig]

/-- A not-yet-found state polling a rejected series `p` appends one
classification of `p` per poll. -/
theorem detectorRun_replicate_rejected (c : String → Bool) (st : DetState)
    (p : String) (n : Nat) (hf : st.found = false) (hne : p ≠ st.orig)
    (hc : c p = false) :
    (detectorRun c st (List.replicate n p)).classifyCalls
      = st.classifyCalls ++ List.replicate n p := by
  induction n generalizing st with
  | zero => simp [detectorRun]
  | succ k ih =>
      have hstep : detectorStep c st p =
          { st with found := false, classifyCalls := st.classifyCalls ++ [p] } := by
        unfold detectorStep
        rw [hf]
        simp [hne, hc]
      rw [List.replicate_succ, detectorRun, List.foldl_cons, hstep,
        show List.foldl (detectorStep c)
            { st with found := false, classifyCalls := st.classifyCalls ++ [p] }
            (List.replicate k p)
          = detectorRun c
              { st with found := false, classifyCalls := st.classifyCalls ++ [p] }
              (List.replicate k p) from rfl]
      rw [ih { st with found := false, classifyCalls := st.classifyCalls ++ [p] }
        rfl hne]
      simp

/-- C2 amended: the baseline orig_seriesdir is never updated — it keeps its
initial value through the whole run — so a series that differs from the
baseline and classifies false is fetched and classified again on every
subsequent poll in which it reappears (n polls of the same rejected series
give n fetch-and-classify calls). -/
theorem detector_baseline_never_updated :
    (∀ (c : String → Bool) (st : DetState) (polls : List String),
        (detectorRun c st polls).orig = st.orig) ∧
    (∀ (c : String → Bool) (orig p : String) (n : Nat),
        p ≠ orig → c p = false →
        (detectorRun c (initDetState orig) (List.replicate n p)).classifyCalls
          = List.replicate n p) := by
  refine ⟨detectorRun_orig_eq, fun c orig p n hne hc => ?_⟩
  have h := detectorRun_replicate_rejected c (initDetState orig) p n rfl hne hc
  simpa [initDetState] using h

/-- C2 witness: three polls of the rejected series "w2" against baseline
"w1" give three classification calls. -/
theorem detector_baseline_never_updated_witness :
    (detectorRun (fun _ => false) (initDetState "w1")
        (List.replicate 3 "w2")).classifyCalls = List.replicate 3 "w2" :=
  detector_baseline_never_updated.2 (fun _ => false) "w1" "w2" 3 (by decide) rfl

/-- C3 counterexample: on the hierarchy whose exam entry "x9" violates the
`e` convention, get_last_imagepath does not fail — it returns the fully
joined image path (together with flag -1); and on the hierarchy whose
patient-level listing is empty it neither fails nor flags anything: it
returns flag OK and a path. -/
theorem locate_latest_counterexample :
    get_last_imagepath violLister "/r" = .ok (-1, "/r/p1/x9/s2/i5", "/r/p1/x9") ∧
    get_last_imagepath emptyPatientLister "/r" = .ok (0, "/r/e1/s2/i5", "/r/e1") :=
  ⟨rfl, rfl⟩

/-- C3 amended: get_last_imagepath checks the e/s/i prefixes, but a
violation only sets the returned flag to -1 — the joined path is still
produced and returned; an empty listing at the exam level raises
IndexError instead of a NotFound result (and an empty patient-level
listing is not detected at all, see the counterexample); for hierarchies
honoring the convention it returns flag OK = 0, the path joined from the
mtime-last entry of each level, and the exam directory. -/
theorem locate_latest_flag_path_and_crash :
    (∀ (ls : Lister) (root : String),
        strHead (ls (ptdirOf ls root)) = .ok 'e' →
        strHead (ls (examdirOf ls root)) = .ok 's' →
        strHead (ls (seriesdirOf ls root)) = .ok 'i' →
        get_last_imagepath ls root =
          .ok (0, pathJoin (seriesdirOf ls root) (imageEntryOf ls root),
            examdirOf ls root)) ∧
    (∀ (ls : Lister) (root : String) (c : Char),
        strHead (ls (ptdirOf ls root)) = .ok c → c ≠ 'e' →
        strHead (ls (examdirOf ls root)) = .ok 's' →
        strHead (ls (seriesdirOf ls root)) = .ok 'i' →
        get_last_imagepath ls root =
          .ok (-1, pathJoin (seriesdirOf ls root) (imageEntryOf ls root),
            examdirOf ls root)) ∧
    (∀ (ls : Lister) (root : String),
        ls (ptdirOf ls root) = "" →
        get_last_imagepath ls root = .error "IndexError") := by
  refine ⟨?_, ?_, ?_⟩
  · intro ls root h2 h3 h4
    simp only [ptdirOf, examdirOf, seriesdirOf, imageEntryOf] at h2 h3 h4 ⊢
    simp only [get_last_imagepath, h2, h3, h4]
    simp
  · intro ls root c h2 hc h3 h4
    simp only [ptdirOf, examdirOf, seriesdirOf, imageEntryOf] at h2 h3 h4 ⊢
    simp only [get_last_imagepath, h2, h3, h4]
    simp [hc]
  · intro ls root h
    simp only [ptdirOf] at h
    simp only [get_last_imagepath, h]
    rfl

/-- C3 witness: the conventional hierarchy resolves to flag 0 and the
image path, with the trailing '*' of the ls output stripped. -/
theorem locate_latest_flag_path_and_crash_witness :
    get_last_imagepath okLister "/r" = .ok (0, "/r/p1/e3/s2/i5", "/r/p1/e3") :=
  (locate_latest_flag_path_and_crash.1 okLister "/r" rfl rfl rfl).trans rfl

/-- C5: the printed summary consists exactly of the StudyID, PatientID,
SeriesDescription, SeriesDate, SeriesTime and ProtocolName lines — the
PatientName field appears in none of them; with a readable sample in the
destination the handler prints the banner, the sample name, the read
notice and that summary and exits 0; with no matching sample it reports
that and exits 0; but a destination whose first sample lacks the
SeriesDescription tag makes the handler die on the AttributeError of the
line-80 typo, exiting with status 1 instead of success. -/
theorem signal_handler_summary :
    (∀ m : Metadata, print_studydata m =
        ["Study ID: " ++ m.StudyID, "Patient ID: " ++ m.PatientID,
         "Series Description: " ++ m.SeriesDescription,
         "Series Date: " ++ m.SeriesDate, "Series Time: " ++ m.SeriesTime,
         "Protocol: " ++ m.ProtocolName]) ∧
    (∀ (dir : String) (listing : List DirEntry) (readDs : String → Dataset)
        (x : DirEntry) (m : Metadata),
        (listing.filter dcmFilter).head? = some x →
        get_metadata (readDs (pathJoin dir x.name)) = .ok m →
        signal_handler dir true listing readDs =
          ("Process intentionally STOPPED. (Ctrl-C)" :: x.name ::
            readMsg (pathJoin dir x.name) :: (print_studydata m ++ ["Quitting!"]), 0)) ∧
    (∀ (dir : String) (listing : List DirEntry) (readDs : String → Dataset),
        listing.filter dcmFilter = [] →
        signal_handler dir true listing readDs =
          (["Process intentionally STOPPED. (Ctrl-C)",
            "No DICOM file found in: " ++ dir ++ "\n Must exit."], 0)) ∧
    (signal_handler "/dest" true [⟨"i000001", true, 7⟩]
        (fun _ => dsMissingSD)).2 = 1 := by
  refine ⟨fun m => rfl, ?_, ?_, rfl⟩
  · intro dir listing readDs x m hx hm
    unfold signal_handler get_dcmpath
    cases hf : listing.filter dcmFilter with
    | nil => rw [hf] at hx; simp at hx
    | cons a t =>
        rw [hf] at hx
        simp only [List.head?_cons, Option.some.injEq] at hx
        subst hx
        simp only [if_true]
        rw [hm]
        rfl
  · intro dir listing readDs hf
    unfold signal_handler get_dcmpath
    rw [hf]
    rfl

/-- C5 witness: a destination holding a fully tagged sample produces the
six-line summary and exit status 0. -/
theorem signal_handler_summary_witness :
    signal_handler "/dest" true [⟨"i1", true, 3⟩] (fun _ => dsFull) =
      ("Process intentionally STOPPED. (Ctrl-C)" :: "i1" ::
        readMsg "/dest/i1" :: (print_studydata mFull ++ ["Quitting!"]), 0) :=
  (signal_handler_summary.2.1 "/dest" [⟨"i1", true, 3⟩] (fun _ => dsFull)
      ⟨"i1", true, 3⟩ mFull rfl rfl).trans rfl

/-- C6: the copy step is idempotent — each run succeeds, and a second run
against an unchanged source performs zero additional destination writes
and leaves the destination unchanged. -/
theorem copy_step_idempotent :
    ∀ (src dest : List String),
      (copyStep src dest).ret = 0 ∧
      (copyStep src (copyStep src dest).dest).ret = 0 ∧
      (copyStep src (copyStep src dest).dest).writes = [] ∧
      (copyStep src (copyStep src dest).dest).dest = (copyStep src dest).dest := by
  intro src dest
  have hw : (copyStep src (copyStep src dest).dest).writes = [] := by
    simp only [copyStep, List.filter_eq_nil_iff]
    intro f hf
    simp only [Bool.not_eq_true', Bool.not_eq_false]
    rw [List.contains_eq_any_beq]
    rw [List.any_eq_true]
    by_cases hd : f ∈ dest
    · exact ⟨f, List.mem_append_left _ hd, by simp⟩
    · refine ⟨f, List.mem_append_right _ ?_, by simp⟩
      rw [List.mem_filter]
      refine ⟨hf, ?_⟩
      simp only [Bool.not_eq_true']
      rw [List.contains_eq_any_beq, List.any_eq_false]
      intro g hg
      simp only [beq_iff_eq]
      intro hfg
      exact hd (hfg ▸ hg)
  refine ⟨rfl, rfl, hw, ?_⟩
  show (copyStep src dest).dest ++ (copyStep src (copyStep src dest).dest).writes
      = (copyStep src dest).dest
  rw [hw, List.append_nil]

/-- Any event sequence keeps the destination free of incomplete files, from
any state whose destination is already clean. -/
theorem xfer_dest_all_complete_aux (ops : List XferOp) (st : XferState)
    (h : st.dest.all FileXfer.complete = true) :
    (ops.foldl xferApply st).dest.all FileXfer.complete = true := by
  induction ops generalizing st with
  | nil => exact h
  | cons op t ih =>
      rw [List.foldl_cons]
      apply ih
      cases op with
      | start name size => exact h
      | writeBytes name n => exact h
      | finish name =>
          have hx : xferApply st (XferOp.finish name)
              = match st.staging.find? (fun f => f.name = name) with
                | some f =>
                    if f.written = f.size then
                      { staging := st.staging.filter (fun g => !(g.name = name)),
                        dest := st.dest ++ [f] }
                    else st
                | none => st := rfl
          rw [hx]
          cases hfind : st.staging.find? (fun f => f.name = name) with
          | none => exact h
          | some f =>
              show (if f.written = f.size then
                  ({ staging := st.staging.filter (fun g => !(g.name = name)),
                     dest := st.dest ++ [f] } : XferState)
                else st).dest.all FileXfer.complete = true
              by_cases hw : f.written = f.size
              · rw [if_pos hw]
                simp only [List.all_append, h, Bool.true_and, List.all_cons,
                  List.all_nil, Bool.and_true]
                simp [FileXfer.complete, hw]
              · rw [if_neg hw]
                exact h

/-- C7: over every finite event sequence of the staged copy — every
interrupted run is the prefix of a longer one, and every prefix of an event
list is an event list — each file in the consumer-visible destination is
fully written: in-flight bytes only ever live in the staging directory. -/
theorem staged_transfer_no_partial_in_dest :
    ∀ ops : List XferOp, (xferRun ops).dest.all FileXfer.complete = true :=
  fun ops => xfer_dest_all_complete_aux ops ⟨[], []⟩ rfl

/-- With results all OK up to a failure, the loop runs the good iterations
(sleeping once after each), then prints the diagnostic of the failing one
and exits with status 0, never touching what would come after. -/
theorem transferRunAux_stops (dir : String) (pre post : List (Option Int))
    (c : Option Int) (n s : Nat) (hpre : ∀ r ∈ pre, r = some OK)
    (hc : c ≠ some OK) :
    transferRunAux dir (pre ++ c :: post) n s =
      .exited (n + pre.length + 1) (s + pre.length) 0
        ("rsync of this dir failed:\n  " ++ dir) := by
  induction pre generalizing n s with
  | nil => simp [transferRunAux, hc]
  | cons r t ih =>
      have hr : r = some OK := hpre r (List.mem_cons_self r t)
      rw [List.cons_append]
      rw [show transferRunAux dir (r :: (t ++ c :: post)) n s
            = if r = some OK then transferRunAux dir (t ++ c :: post) (n + 1) (s + 1)
              else .exited (n + 1) s 0 ("rsync of this dir failed:\n  " ++ dir)
          from rfl]
      rw [if_pos hr]
      rw [ih (n + 1) (s + 1) (fun x hx => hpre x (List.mem_cons_of_mem r hx))]
      congr 1 <;> simp <;> omega

/-- All-OK results keep the loop going, one sleep per iteration. -/
theorem transferRunAux_all_ok (dir : String) (oks : List (Option Int))
    (n s : Nat) (h : ∀ r ∈ oks, r = some OK) :
    transferRunAux dir oks n s = .stillLooping (n + oks.length) (s + oks.length) := by
  induction oks generalizing n s with
  | nil => simp [transferRunAux]
  | cons r t ih =>
      have hr : r = some OK := h r (List.mem_cons_self r t)
      rw [show transferRunAux dir (r :: t) n s
            = if r = some OK then transferRunAux dir t (n + 1) (s + 1)
              else .exited (n + 1) s 0 ("rsync of this dir failed:\n  " ++ dir)
          from rfl]
      rw [if_pos hr]
      rw [ih (n + 1) (s + 1) (fun x hx => h x (List.mem_cons_of_mem r hx))]
      congr 1 <;> simp <;> omega

/-- C8: in the transfer loop, a sequence of zero-returning copy commands
runs iteration after iteration with one fixed sleep after each; the first
iteration whose systemcall result is not retcode 0 (a non-zero code, or
None from a swallowed OSError) prints the diagnostic and exits the process
at once — everything after it, in particular any retry of that iteration,
never runs. -/
theorem transfer_loop_fatal_no_retry :
    (∀ (dir : String) (pre post : List (Option Int)) (c : Option Int),
        (∀ r ∈ pre, r = some OK) → c ≠ some OK →
        transferRun dir (pre ++ c :: post) =
          .exited (pre.length + 1) pre.length 0
            ("rsync of this dir failed:\n  " ++ dir)) ∧
    (∀ (dir : String) (oks : List (Option Int)),
        (∀ r ∈ oks, r = some OK) →
        transferRun dir oks = .stillLooping oks.length oks.length) := by
  constructor
  · intro dir pre post c h hc
    have := transferRunAux_stops dir pre post c 0 0 h hc
    simpa [transferRun] using this
  · intro dir oks h
    have := transferRunAux_all_ok dir oks 0 0 h
    simpa [transferRun] using this

/-- C8 witness: one successful iteration then retcode 12 gives two
iterations run, one sleep, and an immediate exit with the diagnostic. -/
theorem transfer_loop_fatal_no_retry_witness :
    transferRun "/inc" [some 0, some 12] =
      .exited 2 1 0 ("rsync of this dir failed:\n  /inc") := by
  have h := transfer_loop_fatal_no_retry.1 "/inc" [some 0] [] (some 12)
    (by intro r hr; simp at hr; simp [hr, OK]) (by simp [OK])
  simpa using h

end Firmmsync
